import Mathlib

/-!
Shallow embedding of `src/src/App.js` of `react-use-state`.

The file under verification is:

  const useState = initialValue => {
      const setValue = (newValue) => console.log('setValue called with', newValue)
      return [initialValue, setValue]
  }

The module declares no state variables of its own.  `useState` defines the
closure `setValue` (which captures nothing) and returns the pair
`[initialValue, setValue]` without touching any store; `setValue` writes one
console line and returns `undefined`.  We model the observable world as the
console log plus a counter of calls into the hosting driver's `render` entry
point, and thread it explicitly through every operation.
-/

namespace App

/-- Observable effects of the module: the console log (each entry is the fixed
message together with the logged value) and how many times the driver's
`render` entry point has been invoked.  `src/src/App.js` declares no
module-level state variables, so this world is the whole program state. -/
structure GlobalState where
  log : List (String × Int)
  renders : Nat
deriving Repr, DecidableEq

/-- The world at process start: empty console, no renders triggered yet. -/
def startState : GlobalState :=
  { log := [], renders := 0 }

/-- What one call to the driver's `render` entry point would record in the
world.  The module under verification never makes such a call. -/
def renderCall (s : GlobalState) : GlobalState :=
  { s with renders := s.renders + 1 }

/-- `setValue` from `src/src/App.js` line 4:
`const setValue = (newValue) => console.log('setValue called with', newValue)`.
It appends one console line and returns the result of `console.log`, i.e.
`undefined`, modelled as `Unit`.  The closure captures nothing, so a single
global function models every setter the module ever hands out. -/
def setValue (newValue : Int) (s : GlobalState) : Unit × GlobalState :=
  ((), { s with log := s.log ++ [("setValue called with", newValue)] })

/-- `useState` from `src/src/App.js` lines 3–7: it defines `setValue` and
returns the pair `[initialValue, setValue]`.  It reads no store, writes no
store, and leaves the world unchanged. -/
def useState (initialValue : Int) (s : GlobalState) :
    (Int × (Int → GlobalState → Unit × GlobalState)) × GlobalState :=
  ((initialValue, setValue), s)

/-- One render pass of a component whose body makes the listed hook calls in
order (each entry is the `initialValue` handed to that `useState` call),
threading the world exactly as the component body would.  Returns the list of
`[value, setter]` pairs the calls produced, and the final world. -/
def renderPass (inits : List Int) (s : GlobalState) :
    List (Int × (Int → GlobalState → Unit × GlobalState)) × GlobalState :=
  match inits with
  | [] => ([], s)
  | v :: rest =>
      let r := useState v s
      let rs := renderPass rest r.2
      (r.1 :: rs.1, rs.2)

/-- The values (first components) the hook calls of a render pass return. -/
def passValues (inits : List Int) (s : GlobalState) : List Int :=
  (renderPass inits s).1.map Prod.fst

/-- The world after a render pass. -/
def passState (inits : List Int) (s : GlobalState) : GlobalState :=
  (renderPass inits s).2

/-- Invoke the module's setter once for each listed value, in order, threading
the world through the invocations. -/
def applySetters (xs : List Int) (s : GlobalState) : GlobalState :=
  match xs with
  | [] => s
  | x :: rest => applySetters rest (setValue x s).2

/-- C1: the code violates setter visibility (P3 / Scenario A).  The first
render's `useState 0` does return 0, but after invoking the returned setter
with 5, the next render's `useState 0` at the same position still returns 0 —
not the 5 the claim requires — because `setValue` only logs and `useState`
returns its own argument. -/
theorem c1_setter_write_not_visible :
    (useState 0 startState).1.1 = 0 ∧
    (useState 0 ((useState 0 startState).1.2 5 (useState 0 startState).2).2).1.1 = 0 ∧
    (useState 0 ((useState 0 startState).1.2 5 (useState 0 startState).2).2).1.1 ≠ 5 := by
  refine ⟨rfl, rfl, ?_⟩
  decide

/-- C2: the code's setter performs none of the three specified side effects:
on every world it only appends one console line — it resets no cursor (none
exists) and never invokes the driver's render entry point (the render counter
is unchanged); concretely, `setValue 5` from the start state leaves exactly
one log line and zero render invocations. -/
theorem c2_setter_only_logs :
    (∀ (x : Int) (s : GlobalState),
      ((setValue x s).2).renders = s.renders ∧
      ((setValue x s).2).log = s.log ++ [("setValue called with", x)]) ∧
    (setValue 5 startState).2 = { log := [("setValue called with", 5)], renders := 0 } := by
  exact ⟨fun x s => ⟨rfl, rfl⟩, rfl⟩

/-- C3: the code violates one-time initialization (P2).  After a pass calling
`useState 1` at position 0, a later pass calling `useState 2` at the same
position returns 2 — the fresh argument — rather than the previously supplied
value, because every call returns its own `initialValue`. -/
theorem c3_initial_value_not_one_time :
    (useState 1 startState).1.1 = 1 ∧
    (useState 2 (useState 1 startState).2).1.1 = 2 ∧
    (useState 2 (useState 1 startState).2).1.1 ≠ 1 := by
  refine ⟨rfl, rfl, ?_⟩
  decide

/-- C4: the code violates slot stability (P1): it keeps no slot table, so the
i-th call of a pass neither reads nor writes a slot.  With hooks
`useState 10, useState 20` per pass and the second call's setter invoked with
99 between two passes, the next pass still returns `[10, 20]`, not the
`[10, 99]` the slot-i contract requires; moreover both returned setters are
the one global `setValue` closure. -/
theorem c4_no_slot_correspondence :
    passValues [10, 20] startState = [10, 20] ∧
    (renderPass [10, 20] startState).1.map Prod.snd = [setValue, setValue] ∧
    passValues [10, 20] ((setValue 99 (passState [10, 20] startState)).2) = [10, 20] ∧
    passValues [10, 20] ((setValue 99 (passState [10, 20] startState)).2) ≠ [10, 99] := by
  refine ⟨rfl, rfl, rfl, ?_⟩
  decide

/-- C5: the code violates cursor reset (P4) because it maintains no cursor and
assigns no slot at all.  After a first pass `useState 7` whose setter is
invoked with 42, the first hook call of the next pass (`useState 8`, followed
by `useState 9`) returns 8, its own argument, rather than reading the 42 the
claim says slot 0 now holds. -/
theorem c5_no_cursor_no_slot_zero :
    passValues [7] startState = [7] ∧
    passValues [8, 9] ((setValue 42 (passState [7] startState)).2) = [8, 9] ∧
    (passValues [8, 9] ((setValue 42 (passState [7] startState)).2)).head? = some 8 ∧
    (passValues [8, 9] ((setValue 42 (passState [7] startState)).2)).head? ≠ some 42 := by
  refine ⟨rfl, rfl, rfl, ?_⟩
  decide

/-- C6: the code violates the independent-slots property (P5 / Scenario B) on
its mutation half: the two `useState 0` calls occupy no slots, both return the
identical capture-free `setValue` closure, and invoking the second returned
setter with 3 mutates nothing — the next pass returns `[0, 0]`, not the
`[0, 3]` the claim's slot-1 write would produce. -/
theorem c6_setters_mutate_nothing :
    passValues [0, 0] startState = [0, 0] ∧
    (renderPass [0, 0] startState).1.map Prod.snd = [setValue, setValue] ∧
    passValues [0, 0] ((setValue 3 (passState [0, 0] startState)).2) = [0, 0] ∧
    passValues [0, 0] ((setValue 3 (passState [0, 0] startState)).2) ≠ [0, 3] := by
  refine ⟨rfl, rfl, rfl, ?_⟩
  decide

/-- C7: the code violates Scenario C: a setter captures no slot index at its
creation.  The setter handed out by pass 1's `useState 0` is the very same
closure as pass 2's, and invoking it with 5 after pass 2 has run writes to no
slot — the following pass's position-0 call returns 0, not 5. -/
theorem c7_setter_captures_no_index :
    (useState 0 startState).1.2 = (useState 1 (useState 0 startState).2).1.2 ∧
    passValues [0] ((setValue 5 (passState [1] (passState [0] startState))).2) = [0] ∧
    passValues [0] ((setValue 5 (passState [1] (passState [0] startState))).2) ≠ [5] := by
  refine ⟨rfl, rfl, ?_⟩
  decide

/-- C8: `useState initialValue` returns the pair of the current value and the
setter — the world is left unchanged — and running the setter returns no value
(`Unit`, modelling `undefined`). -/
theorem c8_returns_value_setter_pair :
    ∀ (v : Int) (s : GlobalState),
      (useState v s).1.1 = v ∧
      (useState v s).1.2 = setValue ∧
      (useState v s).2 = s ∧
      ∀ (x : Int) (s2 : GlobalState), ((useState v s).1.2 x s2).1 = () :=
  fun _ _ => ⟨rfl, rfl, rfl, fun _ _ => rfl⟩

/-- C9: every `useState v` call returns `v` as the first component of its
result pair, whatever world it runs in — in particular after any earlier
sequence of setter invocations and render passes starting from the start
state. -/
theorem c9_always_returns_argument :
    (∀ (v : Int) (s : GlobalState), (useState v s).1.1 = v) ∧
    ∀ (xs : List Int) (inits : List Int) (v : Int),
      (useState v (passState inits (applySetters xs startState))).1.1 = v :=
  ⟨fun _ _ => rfl, fun _ _ _ => rfl⟩

/-- C10: a setter invocation returns no value, appends exactly one console
line, never invokes the driver's render entry point, and no sequence of setter
invocations changes the value any later `useState` call returns. -/
theorem c10_setter_frame :
    ∀ (x : Int) (s : GlobalState),
      (setValue x s).1 = () ∧
      (setValue x s).2 = { s with log := s.log ++ [("setValue called with", x)] } ∧
      (setValue x s).2.renders = s.renders ∧
      ∀ (xs : List Int) (v : Int),
        (useState v (applySetters xs s)).1.1 = (useState v s).1.1 :=
  fun _ _ => ⟨rfl, rfl, rfl, fun _ _ => rfl⟩

end App
